import Mathlib

/-!
Verification of the multi-tier conflict-of-interest matching engine of the
onboarding platform.  The definitions below are a shallow embedding of
`backend/utils/conflict_check.py` (the three matching tiers and the
orchestrator `run_conflict_check`) and `backend/utils/conflict_schema.py`
(the identity normalizers and `validate_payload`).

Modelling conventions:
* Python strings are `String`, Python `None` is `Option.none`, and Python
  truthiness of optional strings / lists is made explicit (`pyTruthy`,
  `List.isEmpty`).
* Python floats (confidence scores, similarity ratios) are modelled as `ℚ`;
  every constant of the engine (95, 90, 82, 72, 65, 60, 55, 45, 30, 22,
  0.85, 0.92, 0.97, 0.93, 0.87, 50) is exactly representable, and only
  order comparisons are performed on them.
* The relational store (`conflict_index` table) is a list of rows; the SQL
  queries of the engine (tenant-scoped array-overlap lookup, tenant-scoped
  equality lookup, tenant bulk scan, pgvector nearest-neighbour search) are
  translated to list filtering / searching on that list.  Identifier
  strings are assumed free of the characters that would break the Postgres
  array literal built by the Python code (commas and braces).
* The two external collaborators are parameters of the environment:
  `nameSim` stands for `difflib.SequenceMatcher(None, a, b).ratio()` and
  `embedProvider` for `routes.ai.generate_embedding` (`Option.none` models
  a raised provider error); `vecDist` stands for the pgvector cosine
  distance operator, and `vecOk = false` models the caught failure of the
  pgvector query in tier 3.
-/

namespace Onboarding

/-- `models.ClientStatus`. -/
inductive ClientStatus where
  | pending
  | id_uploaded
  | conflict_check
  | manual_review
  | context_collection
  | review
  | approved
  | rejected
deriving DecidableEq

/-- `models.MatchType`. -/
inductive MatchType where
  | exact
  | strong
  | soft
  | none
deriving DecidableEq

/-- `models.ConflictDecision`. -/
inductive ConflictDecision where
  | approved
  | rejected
  | pending
deriving DecidableEq

/-- Python truthiness of an optional string (`None` and `""` are falsy). -/
def pyTruthy : Option String → Bool
  | Option.none => false
  | Option.some s => s ≠ ""

/-- Python `\s` on codepoints: space, tab, newline, carriage return,
vertical tab, form feed. -/
def pyIsSpace (c : Char) : Bool :=
  c.toNat = 32 || c.toNat = 9 || c.toNat = 10 || c.toNat = 13 ||
  c.toNat = 11 || c.toNat = 12

/-- Python `str.strip()` on a character list. -/
def pyStripList (l : List Char) : List Char :=
  ((l.dropWhile pyIsSpace).reverse.dropWhile pyIsSpace).reverse

/-- Python `str.strip()`. -/
def pyStrip (s : String) : String := ⟨pyStripList s.data⟩

/-- Python `str.lower()` (the engine only lower-cases basic latin names). -/
def pyLower (s : String) : String := ⟨s.data.map Char.toLower⟩

/-- Python `str.upper()` (identifiers are basic latin). -/
def pyUpper (s : String) : String := ⟨s.data.map Char.toUpper⟩

/-- One row of the `conflict_index` table (spec: PartyIndexEntry). -/
structure IndexEntry where
  record_id : String
  firm_id : String
  full_name : String
  passport_numbers : List String
  emirates_id : Option String
  nationality : List String
  name_embedding : Option (List ℚ)
deriving DecidableEq

/-- The canonical conflict-check payload of `conflict_schema.py`.  Missing
dict keys coincide with the defaults of `make_empty_payload` except for
`full_name`, where `Option.none` models a key that is absent or `None`
(as produced by `_build_payload`). -/
structure Payload where
  full_name : Option String := Option.none
  passport_numbers : List String := []
  emirates_id : Option String := Option.none
  nationality : List String := []
  entity_names : List String := []
  case_type : Option String := Option.none
  opposing_party : Option String := Option.none
  source_file : Option String := Option.none
deriving DecidableEq

/-- `conflict_schema.make_empty_payload`. -/
def make_empty_payload : Payload :=
  { full_name := Option.some "" }

/-- The `best` dict selected by a tier. -/
structure Best where
  match_type : MatchType
  confidence_score : ℚ
  matched_record_id : Option String
deriving DecidableEq

/-- PostgreSQL array overlap `xs && ys`. -/
def arrOverlap (xs ys : List String) : Bool :=
  xs.any (fun x => ys.contains x)

/-- External collaborators and store state seen by one invocation of the
engine. -/
structure Env where
  store : List IndexEntry
  nameSim : String → String → ℚ
  vecDist : List ℚ → List ℚ → ℚ
  vecOk : Bool
  embedProvider : String → Option (List ℚ)

/-- Row condition of the tier-1 passport query: same tenant and
passport-number array overlap. -/
def t1PassportPred (payload : Payload) (firm_id : String)
    (e : IndexEntry) : Bool :=
  e.firm_id == firm_id && arrOverlap e.passport_numbers payload.passport_numbers

/-- Row condition of the tier-1 Emirates-ID query: same tenant and equal
Emirates ID (SQL equality against `NULL` never holds, hence equality of
the present values). -/
def t1EidPred (payload : Payload) (firm_id : String)
    (e : IndexEntry) : Bool :=
  e.firm_id == firm_id && e.emirates_id == payload.emirates_id

/-- `conflict_check._tier1_exact`: exact passport-number or Emirates-ID
match, scoped to the tenant.  The passport query keeps the first of at most
five overlapping rows (`rows[0]`); the Emirates-ID query is a `fetchone`. -/
def tier1_exact (store : List IndexEntry) (payload : Payload)
    (firm_id : String) : Option Best :=
  if payload.passport_numbers.isEmpty && !(pyTruthy payload.emirates_id) then
    Option.none
  else
    let passportHit : Option IndexEntry :=
      if !payload.passport_numbers.isEmpty then
        (store.filter (t1PassportPred payload firm_id)).head?
      else Option.none
    match passportHit with
    | Option.some row =>
        Option.some ⟨MatchType.exact, 95, Option.some row.record_id⟩
    | Option.none =>
        if pyTruthy payload.emirates_id then
          match store.find? (t1EidPred payload firm_id) with
          | Option.some row =>
              Option.some ⟨MatchType.exact, 90, Option.some row.record_id⟩
          | Option.none => Option.none
        else Option.none

/-- Score table of tier 2, applied to a row that survived the 0.85 floor
(`ratio` is the similarity of the cleaned names, `nat_overlap` the
nationality-overlap boolean). -/
def tier2RowScore (ratio : ℚ) (nat_overlap : Bool) : ℚ :=
  if mkRat 92 100 ≤ ratio ∧ nat_overlap then 82
  else if mkRat 85 100 ≤ ratio ∧ nat_overlap then 72
  else if mkRat 92 100 ≤ ratio then 65
  else 60

/-- Loop body of `_tier2_strong`: the running `(best_score, best_record)`
pair updated by one row of the tenant bulk scan. -/
def tier2Step (env : Env) (query_name : String) (query_nats : List String)
    (acc : ℚ × Option String) (row : IndexEntry) : ℚ × Option String :=
  let db_name := pyStrip (pyLower row.full_name)
  if db_name = "" then acc
  else
    let ratio := env.nameSim query_name db_name
    if ratio < mkRat 85 100 then acc
    else
      let db_nats := row.nationality.map pyUpper
      let nat_overlap := query_nats.any (fun n => db_nats.contains n)
      let score := tier2RowScore ratio nat_overlap
      if acc.1 < score then (score, Option.some row.record_id) else acc

/-- The query name of tier 2: the candidate name lower-cased and
stripped. -/
def tier2QueryName (payload : Payload) : String :=
  pyStrip (pyLower (payload.full_name.getD ""))

/-- The `(best_score, best_record)` pair after the whole tenant bulk scan
of `_tier2_strong`. -/
def tier2Fold (env : Env) (payload : Payload)
    (firm_id : String) : ℚ × Option String :=
  (env.store.filter (fun e => e.firm_id == firm_id)).foldl
    (tier2Step env (tier2QueryName payload)
      (payload.nationality.map pyUpper))
    (0, Option.none)

/-- `conflict_check._tier2_strong`: fuzzy name match over the whole tenant
index, keeping the maximum-scoring row. -/
def tier2_strong (env : Env) (payload : Payload)
    (firm_id : String) : Option Best :=
  if tier2QueryName payload = "" then Option.none
  else
    let res := tier2Fold env payload firm_id
    if pyTruthy res.2 then
      Option.some ⟨MatchType.strong, res.1, res.2⟩
    else Option.none

/-- One row returned by the pgvector query of tier 3. -/
structure SimRow where
  record_id : String
  similarity : ℚ
deriving DecidableEq

/-- Score bands of tier 3, applied to a similarity at or above 0.85. -/
def simBand (sim : ℚ) : ℚ :=
  if mkRat 97 100 ≤ sim then 55
  else if mkRat 93 100 ≤ sim then 45
  else if mkRat 87 100 ≤ sim then 30
  else 22

/-- Loop of `_tier3_soft` over the similarity-ordered rows: the first
iteration either breaks (similarity below 0.85) or returns a match, so
only the head row is ever inspected. -/
def tier3Scan : List SimRow → Option Best
  | [] => Option.none
  | row :: _ =>
    if row.similarity < mkRat 85 100 then Option.none
    else
      Option.some
        ⟨MatchType.soft, simBand row.similarity, Option.some row.record_id⟩

/-- Stable insertion into a list sorted by ascending key. -/
def insertAsc (key : IndexEntry → ℚ) (e : IndexEntry) :
    List IndexEntry → List IndexEntry
  | [] => [e]
  | x :: xs => if key x ≤ key e then x :: insertAsc key e xs else e :: x :: xs

/-- Stable sort by ascending key, modelling the `ORDER BY` of tier 3. -/
def sortAsc (key : IndexEntry → ℚ) : List IndexEntry → List IndexEntry
  | [] => []
  | x :: xs => insertAsc key x (sortAsc key xs)

/-- The pgvector query of `_tier3_soft`: rows of the tenant that have a
stored embedding, ordered by ascending cosine distance to the candidate
vector, first ten, each with its similarity `1 - distance`. -/
def vecQuery (env : Env) (vec : List ℚ) (firm_id : String) : List SimRow :=
  let elig := env.store.filter (fun e =>
    e.firm_id == firm_id && e.name_embedding.isSome)
  let sorted := sortAsc (fun e => env.vecDist (e.name_embedding.getD []) vec) elig
  (sorted.take 10).map (fun e =>
    ⟨e.record_id, 1 - env.vecDist (e.name_embedding.getD []) vec⟩)

/-- `conflict_check._tier3_soft`: the caught failure of the pgvector query
(`vecOk = false`) yields no match instead of an error. -/
def tier3_soft (env : Env) (vec : List ℚ) (firm_id : String) : Option Best :=
  if env.vecOk then tier3Scan (vecQuery env vec firm_id) else Option.none

/-- A `passports` row of the client as read by `_build_payload`. -/
structure Passport where
  passport_number : Option String
  nationality : Option String
  ocr_full_name : Option String
deriving DecidableEq

/-- An `emirates_ids` row of the client as read by `_build_payload`. -/
structure EmiratesID where
  id_number : Option String
deriving DecidableEq

/-- The client row fields used by `run_conflict_check`. -/
structure Client where
  client_id : String
  firm_id : String
  full_name : Option String
  status : ClientStatus
  passports : List Passport
  emirates_ids : List EmiratesID
deriving DecidableEq

/-- `conflict_check._build_payload`.  Python builds `passport_numbers` and
`nationality` through `list(set(..))`, whose order is unspecified and is
never observed downstream (both are only used as sets); we model the
deduplication with `List.dedup`. -/
def build_payload (c : Client) : Payload :=
  let passport_numbers :=
    (c.passports.filterMap (fun p =>
      if pyTruthy p.passport_number then p.passport_number else Option.none)).dedup
  let nationalities :=
    (c.passports.filterMap (fun p =>
      if pyTruthy p.nationality then p.nationality else Option.none)).dedup
  let ocr_name :=
    (c.passports.filterMap (fun p =>
      if pyTruthy p.ocr_full_name then p.ocr_full_name else Option.none)).head?
  let emirates_id :=
    (c.emirates_ids.filterMap (fun e =>
      if pyTruthy e.id_number then e.id_number else Option.none)).head?
  { full_name := match ocr_name with
      | Option.some n => Option.some n
      | Option.none => c.full_name,
    passport_numbers := passport_numbers,
    emirates_id := emirates_id,
    nationality := nationalities }

/-- The embedding obtained by `run_conflict_check` before the tiers run:
attempted only for a truthy name, `Option.none` when the provider raises. -/
def candidateEmbedding (env : Env) (payload : Payload) : Option (List ℚ) :=
  if pyTruthy payload.full_name then
    env.embedProvider (payload.full_name.getD "")
  else Option.none

/-- Python truthiness of the optional embedding (`None` and `[]` falsy). -/
def embTruthy : Option (List ℚ) → Bool
  | Option.none => false
  | Option.some v => !v.isEmpty

/-- `conflict_check.REVIEW_THRESHOLD`. -/
def REVIEW_THRESHOLD : ℚ := 50

/-- The tier cascade of `run_conflict_check`: tier 1, else tier 2, else
(given a truthy embedding) tier 3, else the `none` result with score 0. -/
def selectBest (env : Env) (payload : Payload) (firm_id : String)
    (embedding : Option (List ℚ)) : Best :=
  let best1 := tier1_exact env.store payload firm_id
  let best2 := match best1 with
    | Option.some b => Option.some b
    | Option.none => tier2_strong env payload firm_id
  let best3 := match best2 with
    | Option.some b => Option.some b
    | Option.none =>
        if embTruthy embedding then
          tier3_soft env (embedding.getD []) firm_id
        else Option.none
  best3.getD ⟨MatchType.none, 0, Option.none⟩

/-- The `conflict_results` row persisted by `run_conflict_check` (the
returned dict mirrors its fields). -/
structure ConflictResultRow where
  client_id : String
  match_type : MatchType
  matched_record_id : Option String
  confidence_score : ℚ
  decision : ConflictDecision
deriving DecidableEq

/-- Observable outcome of one invocation of `run_conflict_check`: the
persisted result row and the new client status. -/
structure RunOutcome where
  result : ConflictResultRow
  newStatus : ClientStatus
deriving DecidableEq

/-- Body of `conflict_check.run_conflict_check` after the payload has been
built: tier cascade, persisted pending result, status routing by the
review threshold. -/
def runCheckCore (env : Env) (client_id firm_id : String)
    (status : ClientStatus) (payload : Payload) : RunOutcome :=
  let embedding := candidateEmbedding env payload
  let best := selectBest env payload firm_id embedding
  let row : ConflictResultRow :=
    ⟨client_id, best.match_type, best.matched_record_id,
      best.confidence_score, ConflictDecision.pending⟩
  let newStatus :=
    if REVIEW_THRESHOLD ≤ best.confidence_score then
      ClientStatus.manual_review
    else if status = ClientStatus.conflict_check ∨
        status = ClientStatus.id_uploaded then
      ClientStatus.context_collection
    else status
  ⟨row, newStatus⟩

/-- `conflict_check.run_conflict_check` for an existing client (the
`NotFoundError` branch for a missing client id is outside the model). -/
def run_conflict_check (env : Env) (c : Client) : RunOutcome :=
  runCheckCore env c.client_id c.firm_id c.status (build_payload c)

/-! ### The normalization schema (`conflict_schema.py`) -/

/-- Loop of the whitespace-run collapsing of `_clean_name`
(`re.sub(r"\s+", " ", name)`): the flag records whether the previous
character was whitespace, so each maximal whitespace run becomes one
space. -/
def collapseWS (prevWS : Bool) : List Char → List Char
  | [] => []
  | c :: cs =>
    if pyIsSpace c then
      (if prevWS then collapseWS true cs else ' ' :: collapseWS true cs)
    else c :: collapseWS false cs

/-- `conflict_schema._clean_name`: collapse whitespace runs to a single
space, then strip the ends (Python returns `""` for a falsy input, which
coincides with cleaning the empty string). -/
def clean_name (name : String) : String :=
  pyStrip ⟨collapseWS false name.data⟩

/-- `conflict_schema._clean_id`: remove whitespace and hyphens
(`re.sub(r"[\s\-]", "", s)`), then upper-case (Python returns `""` for a
falsy input, which coincides with cleaning the empty string). -/
def clean_id (id_str : String) : String :=
  ⟨(id_str.data.filter (fun c => !(pyIsSpace c || c.toNat = 45))).map
    Char.toUpper⟩

/-- A JSON value that is either a single string or a list of strings, as
distinguished by the `isinstance(.., str)` checks of the normalizers. -/
inductive StrOrList where
  | str (s : String)
  | list (l : List String)
deriving DecidableEq

/-- Coercion of a maybe-absent string-or-list field to a list, as done by
`x = form_data.get(k, []); if isinstance(x, str): x = [x]`. -/
def coerceList : Option StrOrList → List String
  | Option.none => []
  | Option.some (StrOrList.str s) => [s]
  | Option.some (StrOrList.list l) => l

/-- The raw form fields read by `normalise_manual_input` (each field may be
absent from the dict). -/
structure FormData where
  full_name : Option String := Option.none
  passport_numbers : Option StrOrList := Option.none
  emirates_id : Option String := Option.none
  nationality : Option StrOrList := Option.none
deriving DecidableEq

/-- `conflict_schema.normalise_manual_input`. -/
def normalise_manual_input (form_data : FormData) : Payload :=
  { make_empty_payload with
    source_file := Option.some "manual_input",
    full_name := Option.some (clean_name (form_data.full_name.getD "")),
    passport_numbers :=
      ((coerceList form_data.passport_numbers).filter
        (fun p => p ≠ "")).map clean_id,
    emirates_id :=
      if pyTruthy form_data.emirates_id then
        Option.some (clean_id (form_data.emirates_id.getD ""))
      else Option.none,
    nationality :=
      ((coerceList form_data.nationality).filter
        (fun n => n ≠ "")).map pyStrip }

/-- The loosely-typed dict passed to `validate_payload` (callers pass raw
request bodies as well as normalized payloads). -/
structure ValidationInput where
  full_name : Option String := Option.none
  passport_numbers : Option StrOrList := Option.none
  nationality : Option StrOrList := Option.none
deriving DecidableEq

/-- The `isinstance(payload.get(k, []), list)` check of `validate_payload`
(an absent key defaults to `[]`, which is a list). -/
def isListField : Option StrOrList → Bool
  | Option.none => true
  | Option.some (StrOrList.str _) => false
  | Option.some (StrOrList.list _) => true

/-- `conflict_schema.validate_payload`: the returned problem strings, in
order. -/
def validate_payload (payload : ValidationInput) : List String :=
  (if pyTruthy payload.full_name then [] else ["full_name is required."]) ++
  (if isListField payload.passport_numbers then []
   else ["passport_numbers must be a list." ]) ++
  (if isListField payload.nationality then []
   else ["nationality must be a list."])

/-! ### Specification-level notions used by the claims -/

/-- The persisted/returned result of a run carries exactly the fields of a
tier result. -/
def reportsBest (o : RunOutcome) (b : Best) : Prop :=
  o.result.match_type = b.match_type ∧
  o.result.confidence_score = b.confidence_score ∧
  o.result.matched_record_id = b.matched_record_id

/-- The tenant rows that survive the 0.85 similarity floor of the fuzzy
tier (spec wording: every tenant entry whose similarity to the cleaned
candidate name reaches the floor). -/
def tier2Survivors (env : Env) (payload : Payload)
    (firm_id : String) : List IndexEntry :=
  (env.store.filter (fun e => e.firm_id == firm_id)).filter
    (fun e => mkRat 85 100 ≤
      env.nameSim (tier2QueryName payload) (pyStrip (pyLower e.full_name)))

/-- The condition under which a scanned row reaches the scoring step of
tier 2: non-empty stored name and similarity at or above the floor. -/
@[reducible] def tier2SurvCond (env : Env) (qn : String)
    (row : IndexEntry) : Prop :=
  pyStrip (pyLower row.full_name) ≠ "" ∧
  mkRat 85 100 ≤ env.nameSim qn (pyStrip (pyLower row.full_name))

/-- The fuzzy score of one scanned row, for query name `qn` and
upper-cased candidate nationalities `qs`. -/
def tier2ScoreOf (env : Env) (qn : String) (qs : List String)
    (row : IndexEntry) : ℚ :=
  tier2RowScore (env.nameSim qn (pyStrip (pyLower row.full_name)))
    (qs.any (fun n => (row.nationality.map pyUpper).contains n))

/-- The fuzzy score the table of tier 2 assigns to one tenant entry. -/
def tier2EntryScore (env : Env) (payload : Payload) (e : IndexEntry) : ℚ :=
  tier2ScoreOf env (tier2QueryName payload)
    (payload.nationality.map pyUpper) e

/-- The rows of the semantic tier are ordered by descending similarity. -/
def simSortedDesc : List SimRow → Bool
  | [] => true
  | [_] => true
  | a :: b :: t => (b.similarity ≤ a.similarity) && simSortedDesc (b :: t)

/-- No two adjacent spaces. -/
def noDoubleSpace : List Char → Bool
  | [] => true
  | [_] => true
  | a :: b :: t => !(a = ' ' && b = ' ') && noDoubleSpace (b :: t)

/-- A name with its internal whitespace runs collapsed to single spaces
and its ends trimmed: every whitespace character is a plain space, no two
spaces are adjacent, and no end is a space. -/
def wellCleanedName (s : String) : Prop :=
  (∀ c ∈ s.data, pyIsSpace c = true → c = ' ') ∧
  noDoubleSpace s.data = true ∧
  (∀ c, s.data.head? = Option.some c → pyIsSpace c = false) ∧
  (∀ c, s.data.getLast? = Option.some c → pyIsSpace c = false)

/-! ### Concrete fixtures used by the witnesses and counterexamples -/

/-- A tenant-A party with an indexed passport number, fuzzy-dissimilar to
the candidate of the tier-priority scenario. -/
def entryX : IndexEntry :=
  ⟨"X", "A", "Totally Different", ["P999"], Option.none, [], Option.none⟩

/-- A tenant-A party without identifiers whose name would fuzzy-match the
candidate of the tier-priority scenario at ratio 0.86 with overlapping
nationality (fuzzy score 72). -/
def entryY : IndexEntry :=
  ⟨"Y", "A", "Ahmad Al Mari", [], Option.none, ["UAE"], Option.none⟩

/-- Similarity oracle of the tier-priority scenario. -/
def simC1 : String → String → ℚ := fun a b =>
  if a = "ahmed al marri" ∧ b = "ahmad al mari" then mkRat 86 100 else 0

/-- Environment of the tier-priority scenario. -/
def envC1 : Env :=
  ⟨[entryX, entryY], simC1, fun _ _ => 0, true, fun _ => Option.none⟩

/-- Candidate of the tier-priority scenario: passport exactly matching
`entryX`, name fuzzy-matching `entryY` at 0.86 with shared nationality. -/
def clientC1 : Client :=
  ⟨"c1", "A", Option.none, ClientStatus.conflict_check,
    [⟨Option.some "P999", Option.some "UAE", Option.some "Ahmed Al Marri"⟩],
    []⟩

/-- Tenant-A party used by the exact-tier witness: passport and Emirates
ID both present. -/
def entryR1 : IndexEntry :=
  ⟨"r1", "A", "Name One", ["P1"], Option.some "E1", [], Option.none⟩

/-- A second tenant-A party sharing the Emirates ID but not the passport,
so that passport and national-ID hits would both fire in the same call. -/
def entryR2 : IndexEntry :=
  ⟨"r2", "A", "Name Two", [], Option.some "E1", [], Option.none⟩

/-- Store of the exact-tier witness. -/
def storeC4 : List IndexEntry := [entryR1, entryR2]

/-- Candidate of the exact-tier witness: passport overlapping `entryR1`
and Emirates ID equal to both entries. -/
def payC4 : Payload :=
  { full_name := Option.some "Name One",
    passport_numbers := ["P1"],
    emirates_id := Option.some "E1" }

/-- A party indexed only under tenant B, holding the passport number of
the tenant-isolation candidate. -/
def entryB : IndexEntry :=
  ⟨"rB", "B", "Ahmed Al-Marri", ["P1234567"], Option.none, ["UAE"],
    Option.none⟩

/-- Environment whose store holds only the tenant-B entry. -/
def envC5 : Env :=
  ⟨[entryB], fun _ _ => 0, fun _ _ => 0, true, fun _ => Option.none⟩

/-- The same environment with an empty store. -/
def envC5empty : Env :=
  ⟨[], fun _ _ => 0, fun _ _ => 0, true, fun _ => Option.none⟩

/-- Tenant-A candidate of the isolation scenario, carrying the passport
number that is indexed only under tenant B. -/
def clientC5 : Client :=
  ⟨"c5", "A", Option.none, ClientStatus.conflict_check,
    [⟨Option.some "P1234567", Option.some "UAE",
      Option.some "Ahmed Al Marri"⟩], []⟩

/-- Environment of the degraded-semantic-tier witness: empty tenant index
and an embedding provider that always fails. -/
def envC6 : Env :=
  ⟨[], fun _ _ => 0, fun _ _ => 0, true, fun _ => Option.none⟩

/-- Candidate of the degraded-semantic-tier witness: a name but no
identifiers. -/
def clientC6 : Client :=
  ⟨"c6", "A", Option.some "Nobody Known", ClientStatus.conflict_check,
    [], []⟩

/-- A client already approved, used to refute unconditional forward
routing on a clean result. -/
def clientApproved : Client :=
  ⟨"c7", "A", Option.some "Nobody Known", ClientStatus.approved, [], []⟩

/-- A client sitting in the conflict-check state with a clean result. -/
def clientAtCheck : Client :=
  ⟨"c8", "A", Option.some "Nobody Known", ClientStatus.conflict_check,
    [], []⟩

/-- A client already approved whose passport collides with the tenant-A
index, driving a score of 95 over the review threshold. -/
def clientApprovedHit : Client :=
  ⟨"c9", "A", Option.none, ClientStatus.approved,
    [⟨Option.some "P1", Option.none, Option.some "Name One"⟩], []⟩

/-- Environment holding the exact-tier store for the status-routing
witnesses. -/
def envC10 : Env :=
  ⟨storeC4, fun _ _ => 0, fun _ _ => 0, true, fun _ => Option.none⟩

/-- Tenant-A parties of the fuzzy-tier witness. -/
def entryF1 : IndexEntry :=
  ⟨"f1", "A", "Mohamed Al Marri", [], Option.none, ["UAE"], Option.none⟩

/-- Second fuzzy-tier party, similar to the candidate but without
nationality overlap. -/
def entryF2 : IndexEntry :=
  ⟨"f2", "A", "Mohammad Al Mari", [], Option.none, ["QAT"], Option.none⟩

/-- Similarity oracle of the fuzzy-tier witness: 0.93 to the first party,
0.95 to the second, the floor value on everything else except the empty
string, which scores 0. -/
def simC2 : String → String → ℚ := fun a b =>
  if b = "" then 0
  else if a = "mohammed al marri" ∧ b = "mohamed al marri" then mkRat 93 100
  else if a = "mohammed al marri" ∧ b = "mohammad al mari" then mkRat 95 100
  else 0

/-- Environment of the fuzzy-tier witness; the lower-scoring party comes
first in the scan, so keeping the maximum requires the full scan. -/
def envC2 : Env :=
  ⟨[entryF2, entryF1], simC2, fun _ _ => 0, true, fun _ => Option.none⟩

/-- Candidate of the fuzzy-tier witness. -/
def payC2 : Payload :=
  { full_name := Option.some "Mohammed Al Marri", nationality := ["uae"] }

/-- Tenant-A party with a stored name embedding, for the semantic-tier
witness. -/
def entryV1 : IndexEntry :=
  ⟨"v1", "A", "Vector Match", [], Option.none, [], Option.some [1]⟩

/-- Environment of the semantic-tier witness: one stored embedding at
cosine distance 0.06 (similarity 0.94). -/
def envC3 : Env :=
  ⟨[entryV1], fun _ _ => 0, fun _ _ => mkRat 6 100, true,
    fun _ => Option.some [1]⟩

/-- Raw form input whose only passport entry is a lone hyphen. -/
def fdHyphen : FormData :=
  { passport_numbers := Option.some (StrOrList.list ["-"]) }

/-- Raw form input of the normalizer witness. -/
def fdW9 : FormData :=
  { full_name := Option.some "  ahmed   al  marri ",
    passport_numbers := Option.some (StrOrList.str "p-12 34"),
    emirates_id := Option.some "784-1990",
    nationality := Option.some (StrOrList.list [" UAE ", ""]) }

/-- Payload with a whitespace-only name, truthy as a raw string but empty
after cleaning. -/
def vWhitespaceName : ValidationInput :=
  { full_name := Option.some "   " }

/-! ### Helper lemmas on lists -/

theorem head?_filter_eq_find? {α : Type} (p : α → Bool) (l : List α) :
    (l.filter p).head? = l.find? p := by
  induction l with
  | nil => rfl
  | cons a t ih =>
    by_cases h : p a <;> simp [List.filter_cons, List.find?_cons, h, ih]

theorem arrOverlap_right_ne_nil {xs ys : List String}
    (h : arrOverlap xs ys = true) : ys.isEmpty = false := by
  rcases List.any_eq_true.mp h with ⟨x, _, hx⟩
  cases ys with
  | nil => cases hx
  | cons b t => rfl

theorem tier1_passport_hit (store : List IndexEntry) (payload : Payload)
    (firm_id : String) :
    ∀ e, store.find? (t1PassportPred payload firm_id) = Option.some e →
      tier1_exact store payload firm_id =
        Option.some ⟨MatchType.exact, 95, Option.some e.record_id⟩ := by
  intro e h
  have hpred := List.find?_some h
  have hov : arrOverlap e.passport_numbers payload.passport_numbers
      = true := by
    have := hpred
    simp only [t1PassportPred, Bool.and_eq_true] at this
    exact this.2
  have hne := arrOverlap_right_ne_nil hov
  simp [tier1_exact, hne, head?_filter_eq_find?, h]

/-! ### Helper lemmas on the orchestrator -/

theorem selectBest_tier1 {env : Env} {p : Payload} {f : String}
    {emb : Option (List ℚ)} {b : Best}
    (h : tier1_exact env.store p f = Option.some b) :
    selectBest env p f emb = b := by
  simp [selectBest, h]

theorem selectBest_tier2 {env : Env} {p : Payload} {f : String}
    {emb : Option (List ℚ)} {b : Best}
    (h1 : tier1_exact env.store p f = Option.none)
    (h2 : tier2_strong env p f = Option.some b) :
    selectBest env p f emb = b := by
  simp [selectBest, h1, h2]

theorem selectBest_tier3 {env : Env} {p : Payload} {f : String}
    {emb : Option (List ℚ)} {b : Best}
    (h1 : tier1_exact env.store p f = Option.none)
    (h2 : tier2_strong env p f = Option.none)
    (he : embTruthy emb = true)
    (h3 : tier3_soft env (emb.getD []) f = Option.some b) :
    selectBest env p f emb = b := by
  simp [selectBest, h1, h2, he, h3]

theorem selectBest_none {env : Env} {p : Payload} {f : String}
    {emb : Option (List ℚ)}
    (h1 : tier1_exact env.store p f = Option.none)
    (h2 : tier2_strong env p f = Option.none)
    (h3 : embTruthy emb = true → tier3_soft env (emb.getD []) f = Option.none) :
    selectBest env p f emb = ⟨MatchType.none, 0, Option.none⟩ := by
  cases hb : embTruthy emb
  · simp [selectBest, h1, h2, hb]
  · simp [selectBest, h1, h2, hb, h3 hb]

theorem reportsBest_of_selectBest {env : Env} {c : Client} {b : Best}
    (h : selectBest env (build_payload c) c.firm_id
      (candidateEmbedding env (build_payload c)) = b) :
    reportsBest (run_conflict_check env c) b := by
  refine ⟨?_, ?_, ?_⟩ <;> rw [← h] <;> rfl

theorem run_newStatus_eq (env : Env) (c : Client) :
    (run_conflict_check env c).newStatus =
      if (50:ℚ) ≤ (run_conflict_check env c).result.confidence_score then
        ClientStatus.manual_review
      else if c.status = ClientStatus.conflict_check ∨
          c.status = ClientStatus.id_uploaded then
        ClientStatus.context_collection
      else c.status := rfl

/-! ### Claims -/

/-- Claim C10: with a confidence score below 50, the client status moves
to context_collection exactly when the prior status is conflict_check or
id_uploaded and is otherwise left unchanged, while a score at or above 50
always sets manual_review. -/
theorem run_conflict_check_status_frame (env : Env) (c : Client) :
    ((50:ℚ) ≤ (run_conflict_check env c).result.confidence_score →
      (run_conflict_check env c).newStatus = ClientStatus.manual_review) ∧
    ((run_conflict_check env c).result.confidence_score < 50 →
      (c.status = ClientStatus.conflict_check ∨
        c.status = ClientStatus.id_uploaded) →
      (run_conflict_check env c).newStatus =
        ClientStatus.context_collection) ∧
    ((run_conflict_check env c).result.confidence_score < 50 →
      c.status ≠ ClientStatus.conflict_check →
      c.status ≠ ClientStatus.id_uploaded →
      (run_conflict_check env c).newStatus = c.status) := by
  rw [run_newStatus_eq]
  refine ⟨fun hs => ?_, fun hs hin => ?_, fun hs hn1 hn2 => ?_⟩
  · rw [if_pos hs]
  · rw [if_neg (not_le.mpr hs), if_pos hin]
  · rw [if_neg (not_le.mpr hs), if_neg (by tauto)]

/-- Witness for C10 at concrete inputs: an approved client stays approved
under a clean result, and an approved client with a passport collision
(score 95) is flagged for manual review. -/
theorem run_conflict_check_status_frame_witness :
    (run_conflict_check envC6 clientApproved).newStatus =
      ClientStatus.approved ∧
    (run_conflict_check envC10 clientApprovedHit).newStatus =
      ClientStatus.manual_review := by
  constructor
  · exact (run_conflict_check_status_frame envC6 clientApproved).2.2
      (by decide) (by decide) (by decide)
  · exact (run_conflict_check_status_frame envC10 clientApprovedHit).1
      (by decide)

/-- Counterexample to claim C7 as stated: a clean result (score 0) on an
already-approved client does not route it to context_collection. -/
theorem review_routing_counterexample :
    (run_conflict_check envC6 clientApproved).result.confidence_score < 50 ∧
    (run_conflict_check envC6 clientApproved).newStatus ≠
      ClientStatus.context_collection := by
  decide

/-- Claim C7 (amended): every invocation persists a pending result and
applies the threshold policy — a score at or above 50 routes the subject
to manual review, and a score below 50 routes it forward to context
collection when the subject is in the conflict-check or id-uploaded
state (other states are untouched by a clean result). -/
theorem review_threshold_routing (env : Env) (c : Client) :
    (run_conflict_check env c).result.decision = ConflictDecision.pending ∧
    ((50:ℚ) ≤ (run_conflict_check env c).result.confidence_score →
      (run_conflict_check env c).newStatus = ClientStatus.manual_review) ∧
    ((run_conflict_check env c).result.confidence_score < 50 →
      (c.status = ClientStatus.conflict_check ∨
        c.status = ClientStatus.id_uploaded) →
      (run_conflict_check env c).newStatus =
        ClientStatus.context_collection) := by
  refine ⟨rfl, ?_, ?_⟩ <;> rw [run_newStatus_eq]
  · intro hs; rw [if_pos hs]
  · intro hs hin; rw [if_neg (not_le.mpr hs), if_pos hin]

/-- Witness for the amended C7: a clean check on a client in the
conflict-check state persists a pending result and advances it to context
collection. -/
theorem review_threshold_routing_witness :
    (run_conflict_check envC6 clientAtCheck).result.decision =
      ConflictDecision.pending ∧
    (run_conflict_check envC6 clientAtCheck).newStatus =
      ClientStatus.context_collection := by
  have h := review_threshold_routing envC6 clientAtCheck
  exact ⟨h.1, h.2.2 (by decide) (Or.inl rfl)⟩

/-- Claim C6: when no embedding is available (provider error or no name)
or the vector query fails, a candidate with no exact and no fuzzy match
completes with match type none and score 0. -/
theorem run_conflict_check_degraded (env : Env) (c : Client)
    (h1 : tier1_exact env.store (build_payload c) c.firm_id = Option.none)
    (h2 : tier2_strong env (build_payload c) c.firm_id = Option.none)
    (h3 : candidateEmbedding env (build_payload c) = Option.none ∨
      env.vecOk = false) :
    (run_conflict_check env c).result.match_type = MatchType.none ∧
    (run_conflict_check env c).result.confidence_score = 0 := by
  have hsel : selectBest env (build_payload c) c.firm_id
      (candidateEmbedding env (build_payload c)) =
      ⟨MatchType.none, 0, Option.none⟩ := by
    refine selectBest_none h1 h2 (fun hb => ?_)
    rcases h3 with h3 | h3
    · rw [h3] at hb; cases hb
    · simp [tier3_soft, h3]
  have h := reportsBest_of_selectBest hsel
  exact ⟨h.1, h.2.1⟩

/-- Witness for C6: empty tenant index and an always-failing embedding
provider; the check completes with none and score 0. -/
theorem run_conflict_check_degraded_witness :
    tier1_exact envC6.store (build_payload clientC6) clientC6.firm_id =
      Option.none ∧
    tier2_strong envC6 (build_payload clientC6) clientC6.firm_id =
      Option.none ∧
    (run_conflict_check envC6 clientC6).result.match_type =
      MatchType.none ∧
    (run_conflict_check envC6 clientC6).result.confidence_score = 0 := by
  refine ⟨by decide, by decide, ?_⟩
  exact run_conflict_check_degraded envC6 clientC6 (by decide) (by decide)
    (Or.inl (by decide))

/-- Claim C1: the tiers run in strict priority order — the persisted and
returned result carries the fields of the first tier that returns one,
the remaining tiers being skipped. -/
theorem run_conflict_check_tier_priority (env : Env) (c : Client) :
    (∀ b, tier1_exact env.store (build_payload c) c.firm_id =
        Option.some b →
      reportsBest (run_conflict_check env c) b) ∧
    (tier1_exact env.store (build_payload c) c.firm_id = Option.none →
      ∀ b, tier2_strong env (build_payload c) c.firm_id = Option.some b →
        reportsBest (run_conflict_check env c) b) ∧
    (tier1_exact env.store (build_payload c) c.firm_id = Option.none →
      tier2_strong env (build_payload c) c.firm_id = Option.none →
      embTruthy (candidateEmbedding env (build_payload c)) = true →
      ∀ b, tier3_soft env
          ((candidateEmbedding env (build_payload c)).getD [])
          c.firm_id = Option.some b →
        reportsBest (run_conflict_check env c) b) := by
  refine ⟨fun b h => ?_, fun h1 b h2 => ?_, fun h1 h2 he b h3 => ?_⟩
  · exact reportsBest_of_selectBest (selectBest_tier1 h)
  · exact reportsBest_of_selectBest (selectBest_tier2 h1 h2)
  · exact reportsBest_of_selectBest (selectBest_tier3 h1 h2 he h3)

/-- Witness for C1: a candidate whose passport matches one party exactly
(score 95) and whose name would fuzzy-match a different party at 72; the
persisted result is the exact match. -/
theorem run_conflict_check_tier_priority_witness :
    tier1_exact envC1.store (build_payload clientC1) clientC1.firm_id =
      Option.some ⟨MatchType.exact, 95, Option.some "X"⟩ ∧
    tier2_strong envC1 (build_payload clientC1) clientC1.firm_id =
      Option.some ⟨MatchType.strong, 72, Option.some "Y"⟩ ∧
    reportsBest (run_conflict_check envC1 clientC1)
      ⟨MatchType.exact, 95, Option.some "X"⟩ := by
  refine ⟨by decide, by decide, ?_⟩
  exact (run_conflict_check_tier_priority envC1 clientC1).1 _ (by decide)

/-- Claim C4: in the exact tier a tenant-scoped passport-set overlap hits
at confidence exactly 95 (the first overlapping row), otherwise a
tenant-scoped Emirates-ID equality hits at exactly 90; the passport check
runs first, so a passport hit outranks a simultaneous national-ID hit,
and finding no match returns the empty result of a total function rather
than an error. -/
theorem tier1_exact_spec (store : List IndexEntry) (payload : Payload)
    (firm_id : String) :
    (∀ e, store.find? (t1PassportPred payload firm_id) = Option.some e →
      tier1_exact store payload firm_id =
        Option.some ⟨MatchType.exact, 95, Option.some e.record_id⟩) ∧
    ((∃ e ∈ store, t1PassportPred payload firm_id e = true) →
      ∃ rid, tier1_exact store payload firm_id =
        Option.some ⟨MatchType.exact, 95, Option.some rid⟩) ∧
    (store.find? (t1PassportPred payload firm_id) = Option.none →
      pyTruthy payload.emirates_id = true →
      ∀ e, store.find? (t1EidPred payload firm_id) = Option.some e →
        tier1_exact store payload firm_id =
          Option.some ⟨MatchType.exact, 90, Option.some e.record_id⟩) ∧
    (store.find? (t1PassportPred payload firm_id) = Option.none →
      (pyTruthy payload.emirates_id = false ∨
        store.find? (t1EidPred payload firm_id) = Option.none) →
      tier1_exact store payload firm_id = Option.none) := by
  refine ⟨tier1_passport_hit store payload firm_id, fun hex => ?_,
    fun h1 ht e he => ?_, fun h1 h2 => ?_⟩
  · obtain ⟨e, hmem, hpred⟩ := hex
    obtain ⟨e', he'⟩ := Option.isSome_iff_exists.mp
      (List.find?_isSome.mpr ⟨e, hmem, hpred⟩)
    exact ⟨e'.record_id, tier1_passport_hit store payload firm_id e' he'⟩
  · by_cases hpe : payload.passport_numbers.isEmpty <;>
      simp [tier1_exact, hpe, ht, head?_filter_eq_find?, h1, he]
  · rcases h2 with h2 | h2
    · by_cases hpe : payload.passport_numbers.isEmpty <;>
        simp [tier1_exact, hpe, h2, head?_filter_eq_find?, h1]
    · by_cases hpe : payload.passport_numbers.isEmpty <;>
      by_cases ht : pyTruthy payload.emirates_id <;>
        simp [tier1_exact, hpe, ht, head?_filter_eq_find?, h1, h2]

/-- Witness for C4: a candidate whose passport overlaps one party and
whose Emirates ID equals two parties; the passport hit wins at 95. -/
theorem tier1_exact_spec_witness :
    storeC4.find? (t1PassportPred payC4 "A") = Option.some entryR1 ∧
    storeC4.find? (t1EidPred payC4 "A") = Option.some entryR1 ∧
    tier1_exact storeC4 payC4 "A" =
      Option.some ⟨MatchType.exact, 95, Option.some "r1"⟩ := by
  refine ⟨by decide, by decide, ?_⟩
  exact (tier1_exact_spec storeC4 payC4 "A").1 entryR1 (by decide)

/-- In a similarity-descending row list, every row is bounded by the
head. -/
theorem simSorted_head {a : SimRow} {t : List SimRow}
    (h : simSortedDesc (a :: t) = true) :
    ∀ x ∈ t, x.similarity ≤ a.similarity := by
  induction t generalizing a with
  | nil => intro x hx; cases hx
  | cons b t ih =>
    intro x hx
    have hab : b.similarity ≤ a.similarity ∧ simSortedDesc (b :: t) = true := by
      have := h
      simp only [simSortedDesc, Bool.and_eq_true, decide_eq_true_eq] at this
      exact this
    rcases List.mem_cons.mp hx with rfl | hx
    · exact hab.1
    · exact le_trans (ih hab.2 x hx) hab.1

/-- Claim C3: the semantic tier receives at most ten rows ordered by
descending similarity, stops at the first row below the 0.85 floor, and
returns the first row at or above the floor as a soft match scored by the
band table; with no qualifying row it returns no match. -/
theorem tier3_soft_spec (env : Env) (vec : List ℚ) (firm_id : String)
    (hok : env.vecOk = true)
    (hsort : simSortedDesc (vecQuery env vec firm_id) = true) :
    (vecQuery env vec firm_id).length ≤ 10 ∧
    ((vecQuery env vec firm_id).find?
        (fun r => mkRat 85 100 ≤ r.similarity) = Option.none →
      tier3_soft env vec firm_id = Option.none) ∧
    (∀ r, (vecQuery env vec firm_id).find?
        (fun r => mkRat 85 100 ≤ r.similarity) = Option.some r →
      tier3_soft env vec firm_id =
        Option.some ⟨MatchType.soft, simBand r.similarity,
          Option.some r.record_id⟩) := by
  refine ⟨?_, ?_, ?_⟩
  · simp only [vecQuery, List.length_map, List.length_take]
    exact Nat.min_le_left _ _
  · intro hnone
    cases hrows : vecQuery env vec firm_id with
    | nil => simp [tier3_soft, hok, hrows, tier3Scan]
    | cons r t =>
      rw [hrows] at hnone
      have hr := List.find?_eq_none.mp hnone r (List.mem_cons_self r t)
      have hlt : r.similarity < mkRat 85 100 := by
        simpa using hr
      simp [tier3_soft, hok, hrows, tier3Scan, hlt]
  · intro r hfind
    cases hrows : vecQuery env vec firm_id with
    | nil => rw [hrows] at hfind; cases hfind
    | cons a t =>
      rw [hrows] at hfind hsort
      by_cases ha : mkRat 85 100 ≤ a.similarity
      · rw [List.find?_cons_of_pos t (by simpa using ha)] at hfind
        obtain rfl : a = r := Option.some.inj hfind
        simp [tier3_soft, hok, hrows, tier3Scan, not_lt.mpr ha]
      · exfalso
        have hall := simSorted_head hsort
        have : (a :: t).find?
            (fun r => decide (mkRat 85 100 ≤ r.similarity)) = Option.none := by
          refine List.find?_eq_none.mpr ?_
          intro x hx
          rcases List.mem_cons.mp hx with rfl | hx
          · simpa using ha
          · have hxa : x.similarity < mkRat 85 100 :=
              lt_of_le_of_lt (hall x hx) (not_le.mp ha)
            simpa using not_le.mpr hxa
        rw [this] at hfind
        cases hfind

/-- Witness for C3: one stored embedding at cosine distance 0.06 from the
candidate (similarity 0.94) is returned as a soft match with score 45. -/
theorem tier3_soft_spec_witness :
    simSortedDesc (vecQuery envC3 [1] "A") = true ∧
    tier3_soft envC3 [1] "A" =
      Option.some ⟨MatchType.soft, 45, Option.some "v1"⟩ := by
  have hq : vecQuery envC3 [1] "A" = [⟨"v1", 1 - mkRat 6 100⟩] := rfl
  have hsim : (1:ℚ) - mkRat 6 100 = mkRat 94 100 := by
    rw [Rat.mkRat_eq_div, Rat.mkRat_eq_div]
    norm_num
  have hq2 : vecQuery envC3 [1] "A" = [⟨"v1", mkRat 94 100⟩] := by
    rw [hq, hsim]
  have hsort : simSortedDesc (vecQuery envC3 [1] "A") = true := by
    rw [hq2]; rfl
  have hfind : (vecQuery envC3 [1] "A").find?
      (fun r => mkRat 85 100 ≤ r.similarity) =
      Option.some ⟨"v1", mkRat 94 100⟩ := by
    rw [hq2]; decide
  have h := (tier3_soft_spec envC3 [1] "A" rfl hsort).2.2
    ⟨"v1", mkRat 94 100⟩ hfind
  have hband : simBand (mkRat 94 100) = 45 := by decide
  rw [hband] at h
  exact ⟨hsort, h⟩

/-! ### Helpers for tenant isolation -/

theorem filter_and_split (s : List IndexEntry) (f : String)
    (P : IndexEntry → Bool) :
    s.filter (fun e => e.firm_id == f && P e) =
      (s.filter (fun e => e.firm_id == f)).filter P := by
  induction s with
  | nil => rfl
  | cons a t ih =>
    by_cases h1 : a.firm_id == f <;> by_cases h2 : P a <;>
      simp [List.filter_cons, h1, h2, ih]

theorem find?_and_split (s : List IndexEntry) (f : String)
    (P : IndexEntry → Bool) :
    s.find? (fun e => e.firm_id == f && P e) =
      (s.filter (fun e => e.firm_id == f)).find? P := by
  induction s with
  | nil => rfl
  | cons a t ih =>
    by_cases h1 : a.firm_id == f <;> by_cases h2 : P a <;>
      simp [List.filter_cons, List.find?_cons, h1, h2, ih]

theorem tier1_store_agree {s1 s2 : List IndexEntry} {f : String}
    (h : s1.filter (fun e => e.firm_id == f) =
      s2.filter (fun e => e.firm_id == f)) (payload : Payload) :
    tier1_exact s1 payload f = tier1_exact s2 payload f := by
  have hp : s1.filter (t1PassportPred payload f) =
      s2.filter (t1PassportPred payload f) := by
    rw [show t1PassportPred payload f = fun e =>
        e.firm_id == f && arrOverlap e.passport_numbers
          payload.passport_numbers from rfl,
      filter_and_split, filter_and_split, h]
  have he : s1.find? (t1EidPred payload f) =
      s2.find? (t1EidPred payload f) := by
    rw [show t1EidPred payload f = fun e =>
        e.firm_id == f && e.emirates_id == payload.emirates_id from rfl,
      find?_and_split, find?_and_split, h]
  simp only [tier1_exact, hp, he]

theorem tier2Step_env_agree {env1 env2 : Env}
    (h : env1.nameSim = env2.nameSim) :
    tier2Step env1 = tier2Step env2 := by
  funext qn qs acc row
  simp only [tier2Step, h]

theorem tier2_store_agree {env1 env2 : Env} {f : String}
    (hstore : env1.store.filter (fun e => e.firm_id == f) =
      env2.store.filter (fun e => e.firm_id == f))
    (hsim : env1.nameSim = env2.nameSim) (payload : Payload) :
    tier2_strong env1 payload f = tier2_strong env2 payload f := by
  simp only [tier2_strong, tier2Fold, hstore, tier2Step_env_agree hsim]

theorem vecQuery_store_agree {env1 env2 : Env} {f : String}
    (hstore : env1.store.filter (fun e => e.firm_id == f) =
      env2.store.filter (fun e => e.firm_id == f))
    (hdist : env1.vecDist = env2.vecDist) (vec : List ℚ) :
    vecQuery env1 vec f = vecQuery env2 vec f := by
  have hel : env1.store.filter
      (fun e => e.firm_id == f && e.name_embedding.isSome) =
      env2.store.filter
        (fun e => e.firm_id == f && e.name_embedding.isSome) := by
    rw [filter_and_split, filter_and_split, hstore]
  simp only [vecQuery, hel, hdist]

theorem tier3_store_agree {env1 env2 : Env} {f : String}
    (hstore : env1.store.filter (fun e => e.firm_id == f) =
      env2.store.filter (fun e => e.firm_id == f))
    (hdist : env1.vecDist = env2.vecDist)
    (hok : env1.vecOk = env2.vecOk) (vec : List ℚ) :
    tier3_soft env1 vec f = tier3_soft env2 vec f := by
  simp only [tier3_soft, hok, vecQuery_store_agree hstore hdist]

/-- Claim C5: the outcome of a check depends only on the tenant-scoped
slice of the party index — two stores agreeing on the rows of the
candidate tenant give identical results. -/
theorem run_conflict_check_tenant_isolation (env1 env2 : Env) (c : Client)
    (hstore : env1.store.filter (fun e => e.firm_id == c.firm_id) =
      env2.store.filter (fun e => e.firm_id == c.firm_id))
    (hsim : env1.nameSim = env2.nameSim)
    (hdist : env1.vecDist = env2.vecDist)
    (hok : env1.vecOk = env2.vecOk)
    (hemb : env1.embedProvider = env2.embedProvider) :
    run_conflict_check env1 c = run_conflict_check env2 c := by
  have hce : candidateEmbedding env1 (build_payload c) =
      candidateEmbedding env2 (build_payload c) := by
    simp only [candidateEmbedding, hemb]
  have hsel : selectBest env1 (build_payload c) c.firm_id
        (candidateEmbedding env1 (build_payload c)) =
      selectBest env2 (build_payload c) c.firm_id
        (candidateEmbedding env2 (build_payload c)) := by
    simp only [selectBest, tier1_store_agree hstore,
      tier2_store_agree hstore hsim, hce]
    cases tier1_exact env2.store (build_payload c) c.firm_id with
    | some b => rfl
    | none =>
      cases tier2_strong env2 (build_payload c) c.firm_id with
      | some b => rfl
      | none =>
        cases embTruthy (candidateEmbedding env2 (build_payload c)) with
        | false => rfl
        | true => simp [tier3_store_agree hstore hdist hok]
  show runCheckCore env1 c.client_id c.firm_id c.status (build_payload c) =
    runCheckCore env2 c.client_id c.firm_id c.status (build_payload c)
  simp only [runCheckCore, hsel]

/-! ### Helpers for the fuzzy tier -/

theorem tier2Step_eq (env : Env) (qn : String) (qs : List String)
    (acc : ℚ × Option String) (row : IndexEntry) :
    tier2Step env qn qs acc row =
      if tier2SurvCond env qn row ∧ acc.1 < tier2ScoreOf env qn qs row then
        (tier2ScoreOf env qn qs row, Option.some row.record_id)
      else acc := by
  have hsc : tier2ScoreOf env qn qs row =
      tier2RowScore (env.nameSim qn (pyStrip (pyLower row.full_name)))
        (qs.any fun n => (row.nationality.map pyUpper).contains n) := rfl
  by_cases h1 : pyStrip (pyLower row.full_name) = ""
  · rw [if_neg (fun hc => hc.1.1 h1)]
    simp only [tier2Step]
    rw [if_pos h1]
  · by_cases h2 : env.nameSim qn (pyStrip (pyLower row.full_name)) <
        mkRat 85 100
    · rw [if_neg (fun hc => absurd hc.1.2 (not_le.mpr h2))]
      simp only [tier2Step]
      rw [if_neg h1, if_pos h2]
    · by_cases h3 : acc.1 < tier2ScoreOf env qn qs row
      · have h3' := h3
        rw [hsc] at h3'
        rw [if_pos ⟨⟨h1, not_lt.mp h2⟩, h3⟩, hsc]
        simp only [tier2Step]
        rw [if_neg h1, if_neg h2, if_pos h3']
      · rw [if_neg (fun hc => h3 hc.2)]
        simp only [tier2Step]
        rw [if_neg h1, if_neg h2,
          if_neg (fun hc => h3 (by rw [hsc]; exact hc))]

theorem tier2RowScore_ge60 (ratio : ℚ) (ov : Bool) :
    60 ≤ tier2RowScore ratio ov := by
  unfold tier2RowScore
  split_ifs <;> norm_num

theorem tier2_fold_le (env : Env) (qn : String) (qs : List String)
    (rows : List IndexEntry) (acc : ℚ × Option String) :
    acc.1 ≤ (rows.foldl (tier2Step env qn qs) acc).1 := by
  induction rows generalizing acc with
  | nil => exact le_refl _
  | cons a t ih =>
    rw [List.foldl_cons]
    refine le_trans ?_ (ih (tier2Step env qn qs acc a))
    rw [tier2Step_eq]
    split
    · next h => exact le_of_lt h.2
    · exact le_refl _

theorem tier2_fold_max (env : Env) (qn : String) (qs : List String)
    (rows : List IndexEntry) (acc : ℚ × Option String) :
    ∀ r ∈ rows, tier2SurvCond env qn r →
      tier2ScoreOf env qn qs r ≤ (rows.foldl (tier2Step env qn qs) acc).1 := by
  induction rows generalizing acc with
  | nil => intro r hr; cases hr
  | cons a t ih =>
    intro r hr hs
    rw [List.foldl_cons]
    rcases List.mem_cons.mp hr with heq | hr
    · subst heq
      refine le_trans ?_ (tier2_fold_le env qn qs t (tier2Step env qn qs acc r))
      rw [tier2Step_eq]
      split
      · exact le_refl _
      · next h =>
        exact not_lt.mp (fun hc => h ⟨hs, hc⟩)
    · exact ih (tier2Step env qn qs acc a) r hr hs

theorem tier2_fold_attained (env : Env) (qn : String) (qs : List String)
    (rows : List IndexEntry) :
    ∀ acc, rows.foldl (tier2Step env qn qs) acc = acc ∨
      ∃ r ∈ rows, tier2SurvCond env qn r ∧
        rows.foldl (tier2Step env qn qs) acc =
          (tier2ScoreOf env qn qs r, Option.some r.record_id) := by
  induction rows with
  | nil => intro acc; exact Or.inl rfl
  | cons a t ih =>
    intro acc
    rw [List.foldl_cons]
    have hstep := tier2Step_eq env qn qs acc a
    by_cases h : tier2SurvCond env qn a ∧ acc.1 < tier2ScoreOf env qn qs a
    · rw [if_pos h] at hstep
      rcases ih (tier2Step env qn qs acc a) with h2 | ⟨r, hr, hs, heq⟩
      · exact Or.inr ⟨a, List.mem_cons_self a t, h.1, by rw [h2, hstep]⟩
      · exact Or.inr ⟨r, List.mem_cons_of_mem a hr, hs, heq⟩
    · rw [if_neg h] at hstep
      rcases ih (tier2Step env qn qs acc a) with h2 | ⟨r, hr, hs, heq⟩
      · exact Or.inl (by rw [h2, hstep])
      · exact Or.inr ⟨r, List.mem_cons_of_mem a hr, hs, heq⟩

theorem mem_tier2Survivors {env : Env} {payload : Payload} {f : String}
    (hfloor : ∀ s, env.nameSim s "" < mkRat 85 100) (e : IndexEntry) :
    e ∈ tier2Survivors env payload f ↔
      e ∈ env.store.filter (fun x => x.firm_id == f) ∧
        tier2SurvCond env (tier2QueryName payload) e := by
  constructor
  · intro h
    obtain ⟨hmem, hle⟩ := List.mem_filter.mp h
    have hle : mkRat 85 100 ≤
        env.nameSim (tier2QueryName payload)
          (pyStrip (pyLower e.full_name)) := by simpa using hle
    refine ⟨hmem, ?_, hle⟩
    intro hempty
    rw [hempty] at hle
    exact absurd hle (not_le.mpr (hfloor _))
  · intro ⟨hmem, hcond⟩
    exact List.mem_filter.mpr ⟨hmem, by simpa using hcond.2⟩

/-- Claim C2: for a candidate with a non-empty cleaned name, the fuzzy
tier scans every tenant row, discards rows below the 0.85 floor, scores
each survivor by the exact table, and returns the single highest-scoring
survivor as a strong match — or no match exactly when no row reaches the
floor. -/
theorem tier2_strong_spec (env : Env) (payload : Payload) (firm_id : String)
    (hname : tier2QueryName payload ≠ "")
    (hids : ∀ e ∈ env.store, e.record_id ≠ "")
    (hfloor : ∀ s, env.nameSim s "" < mkRat 85 100) :
    (tier2_strong env payload firm_id = Option.none ↔
      tier2Survivors env payload firm_id = []) ∧
    (∀ b, tier2_strong env payload firm_id = Option.some b →
      b.match_type = MatchType.strong ∧
      (∃ e ∈ tier2Survivors env payload firm_id,
        b.matched_record_id = Option.some e.record_id ∧
        b.confidence_score = tier2EntryScore env payload e) ∧
      ∀ e ∈ tier2Survivors env payload firm_id,
        tier2EntryScore env payload e ≤ b.confidence_score) := by
  have hrun : tier2_strong env payload firm_id =
      (if pyTruthy (tier2Fold env payload firm_id).2 then
        Option.some ⟨MatchType.strong, (tier2Fold env payload firm_id).1,
          (tier2Fold env payload firm_id).2⟩
      else Option.none) := by
    simp only [tier2_strong, if_neg hname]
  rcases tier2_fold_attained env (tier2QueryName payload)
      (payload.nationality.map pyUpper)
      (env.store.filter (fun e => e.firm_id == firm_id))
      (0, Option.none) with hatt | ⟨r, hr, hs, hatt⟩
  · have hfold : tier2Fold env payload firm_id = (0, Option.none) := hatt
    have hnone : tier2_strong env payload firm_id = Option.none := by
      rw [hrun, hfold]
      rfl
    have hsurv : tier2Survivors env payload firm_id = [] := by
      rw [List.eq_nil_iff_forall_not_mem]
      intro e he
      obtain ⟨hmem, hcond⟩ := (mem_tier2Survivors hfloor e).mp he
      have hle := tier2_fold_max env (tier2QueryName payload)
        (payload.nationality.map pyUpper)
        (env.store.filter (fun e => e.firm_id == firm_id))
        (0, Option.none) e hmem hcond
      rw [hatt] at hle
      have h60 := tier2RowScore_ge60
        (env.nameSim (tier2QueryName payload)
          (pyStrip (pyLower e.full_name)))
        ((payload.nationality.map pyUpper).any
          (fun n => (e.nationality.map pyUpper).contains n))
      have : (60:ℚ) ≤ 0 := le_trans h60 hle
      norm_num at this
    refine ⟨iff_of_true hnone hsurv, fun b hb => ?_⟩
    rw [hnone] at hb
    cases hb
  · have hfold : tier2Fold env payload firm_id =
        (tier2ScoreOf env (tier2QueryName payload)
          (payload.nationality.map pyUpper) r,
          Option.some r.record_id) := hatt
    have hrid : r.record_id ≠ "" :=
      hids r (List.mem_filter.mp hr).1
    have hsome : tier2_strong env payload firm_id =
        Option.some ⟨MatchType.strong,
          tier2ScoreOf env (tier2QueryName payload)
            (payload.nationality.map pyUpper) r,
          Option.some r.record_id⟩ := by
      rw [hrun, hfold]
      simp [pyTruthy, hrid]
    have hrs : r ∈ tier2Survivors env payload firm_id :=
      (mem_tier2Survivors hfloor r).mpr ⟨hr, hs⟩
    constructor
    · constructor
      · intro h
        rw [hsome] at h
        cases h
      · intro h
        rw [h] at hrs
        cases hrs
    · intro b hb
      rw [hsome] at hb
      obtain rfl := Option.some.inj hb
      refine ⟨rfl, ⟨r, hrs, rfl, rfl⟩, fun e he => ?_⟩
      obtain ⟨hmem, hcond⟩ := (mem_tier2Survivors hfloor e).mp he
      have := tier2_fold_max env (tier2QueryName payload)
        (payload.nationality.map pyUpper)
        (env.store.filter (fun e => e.firm_id == firm_id))
        (0, Option.none) e hmem hcond
      rw [hatt] at this
      exact this

/-- Witness for C2: two surviving tenant rows, the lower-scoring one
scanned first (65 without nationality overlap), the higher-scoring one
second (82 with overlap); the tier returns the maximum 82. -/
theorem tier2_strong_spec_witness :
    tier2_strong envC2 payC2 "A" =
      Option.some ⟨MatchType.strong, 82, Option.some "f1"⟩ ∧
    tier2Survivors envC2 payC2 "A" = [entryF2, entryF1] ∧
    tier2EntryScore envC2 payC2 entryF2 = 65 ∧
    tier2EntryScore envC2 payC2 entryF1 = 82 ∧
    (∀ e ∈ tier2Survivors envC2 payC2 "A",
      tier2EntryScore envC2 payC2 e ≤ 82) := by
  have hfloor : ∀ s, envC2.nameSim s "" < mkRat 85 100 := by
    intro s
    show simC2 s "" < mkRat 85 100
    rw [show simC2 s "" = 0 from by unfold simC2; exact if_pos rfl]
    decide
  have h := tier2_strong_spec envC2 payC2 "A" (by decide) (by decide) hfloor
  have hb := (h.2 ⟨MatchType.strong, 82, Option.some "f1"⟩ (by decide)).2.2
  exact ⟨by decide, by decide, by decide, by decide, hb⟩

/-- Witness for C5: a passport indexed only under tenant B is invisible to
a tenant-A check — the store with the tenant-B row and the empty store
produce the same outcome, which is no match with score 0. -/
theorem run_conflict_check_tenant_isolation_witness :
    run_conflict_check envC5 clientC5 =
      run_conflict_check envC5empty clientC5 ∧
    (run_conflict_check envC5 clientC5).result.match_type =
      MatchType.none ∧
    (run_conflict_check envC5 clientC5).result.confidence_score = 0 := by
  refine ⟨?_, by decide, by decide⟩
  exact run_conflict_check_tenant_isolation envC5 envC5empty clientC5
    (by decide) rfl rfl rfl rfl

/-! ### Helpers on characters and cleaning -/

theorem toNat_ofNat_valid (n : Nat) (h : n.isValidChar) :
    (Char.ofNat n).toNat = n := by
  rw [Char.ofNat, dif_pos h]
  rfl

theorem toUpper_toNat_cases (c : Char) :
    (97 ≤ c.toNat ∧ c.toNat ≤ 122 ∧ (Char.toUpper c).toNat = c.toNat - 32) ∨
    (¬(97 ≤ c.toNat ∧ c.toNat ≤ 122) ∧ Char.toUpper c = c) := by
  simp only [Char.toUpper]
  by_cases h : c.toNat ≥ 97 ∧ c.toNat ≤ 122
  · left
    refine ⟨h.1, h.2, ?_⟩
    rw [if_pos h]
    exact toNat_ofNat_valid _ (Or.inl (by omega))
  · right
    exact ⟨h, if_neg h⟩

theorem pyIsSpace_toNat (c : Char) :
    pyIsSpace c = true ↔ (c.toNat = 32 ∨ c.toNat = 9 ∨ c.toNat = 10 ∨
      c.toNat = 13 ∨ c.toNat = 11 ∨ c.toNat = 12) := by
  simp only [pyIsSpace, Bool.or_eq_true, decide_eq_true_eq]
  tauto

theorem clean_id_chars (s : String) :
    ∀ c ∈ (clean_id s).data,
      pyIsSpace c = false ∧ c.toNat ≠ 45 ∧
        ¬(97 ≤ c.toNat ∧ c.toNat ≤ 122) := by
  intro c hc
  simp only [clean_id] at hc
  obtain ⟨d, hd, rfl⟩ := List.mem_map.mp hc
  obtain ⟨_, hkeep⟩ := List.mem_filter.mp hd
  have hds : pyIsSpace d = false ∧ d.toNat ≠ 45 := by
    simpa using hkeep
  have hdsp : ¬(d.toNat = 32 ∨ d.toNat = 9 ∨ d.toNat = 10 ∨
      d.toNat = 13 ∨ d.toNat = 11 ∨ d.toNat = 12) := by
    intro hmem
    rw [← pyIsSpace_toNat] at hmem
    rw [hds.1] at hmem
    cases hmem
  rcases toUpper_toNat_cases d with ⟨h1, h2, h3⟩ | ⟨hnl, h3⟩
  · refine ⟨?_, by omega, by omega⟩
    rw [Bool.eq_false_iff]
    intro hsp
    have hv := (pyIsSpace_toNat _).mp hsp
    omega
  · rw [h3]
    exact ⟨hds.1, hds.2, hnl⟩

theorem collapseWS_space : ∀ (l : List Char) (b : Bool),
    ∀ c ∈ collapseWS b l, pyIsSpace c = true → c = ' '
  | [], _ => by intro c hc; cases hc
  | a :: t, b => by
    intro c hc hsp
    by_cases ha : pyIsSpace a
    · cases b with
      | true =>
        have he : collapseWS true (a :: t) = collapseWS true t := by
          simp [collapseWS, ha]
        rw [he] at hc
        exact collapseWS_space t true c hc hsp
      | false =>
        have he : collapseWS false (a :: t) = ' ' :: collapseWS true t := by
          simp [collapseWS, ha]
        rw [he] at hc
        rcases List.mem_cons.mp hc with rfl | hc
        · rfl
        · exact collapseWS_space t true c hc hsp
    · have he : collapseWS b (a :: t) = a :: collapseWS false t := by
        simp [collapseWS, ha]
      rw [he] at hc
      rcases List.mem_cons.mp hc with rfl | hc
      · exact absurd hsp (by simpa using ha)
      · exact collapseWS_space t false c hc hsp

theorem noDouble_cons_of {x : Char} {r : List Char}
    (h1 : ∀ c, r.head? = Option.some c → ¬(x = ' ' ∧ c = ' '))
    (h2 : noDoubleSpace r = true) : noDoubleSpace (x :: r) = true := by
  cases r with
  | nil => rfl
  | cons c t =>
    have hx := h1 c rfl
    show (!(x = ' ' && c = ' ') && noDoubleSpace (c :: t)) = true
    rw [Bool.and_eq_true]
    refine ⟨by simpa using not_and_or.mp hx, h2⟩

theorem collapseWS_noDouble : ∀ (l : List Char) (b : Bool),
    noDoubleSpace (collapseWS b l) = true ∧
    (b = true → ∀ c, (collapseWS b l).head? = Option.some c → c ≠ ' ')
  | [], b => by
    refine ⟨rfl, fun _ c hc => ?_⟩
    cases hc
  | a :: t, b => by
    by_cases ha : pyIsSpace a
    · cases b with
      | true =>
        have he : collapseWS true (a :: t) = collapseWS true t := by
          simp [collapseWS, ha]
        have ih := collapseWS_noDouble t true
        rw [he]
        exact ih
      | false =>
        have he : collapseWS false (a :: t) = ' ' :: collapseWS true t := by
          simp [collapseWS, ha]
        have ih := collapseWS_noDouble t true
        refine ⟨?_, fun hb => by cases hb⟩
        rw [he]
        exact noDouble_cons_of
          (fun c hc hand => (ih.2 rfl c hc) hand.2) ih.1
    · have he : collapseWS b (a :: t) = a :: collapseWS false t := by
        simp [collapseWS, ha]
      have ih := collapseWS_noDouble t false
      have hane : a ≠ ' ' := by
        intro haeq
        rw [haeq] at ha
        exact ha (by decide)
      refine ⟨?_, fun _ c hc => ?_⟩
      · rw [he]
        exact noDouble_cons_of (fun c hc hand => hane hand.1) ih.1
      · rw [he] at hc
        obtain rfl : a = c := by simpa using hc
        exact hane ∘ id

theorem noDouble_tail {x : Char} {l : List Char}
    (h : noDoubleSpace (x :: l) = true) : noDoubleSpace l = true := by
  cases l with
  | nil => rfl
  | cons c t =>
    have h' : (!(x = ' ' && c = ' ') && noDoubleSpace (c :: t)) = true := h
    rw [Bool.and_eq_true] at h'
    exact h'.2

theorem noDouble_append_right : ∀ (t l : List Char),
    noDoubleSpace (t ++ l) = true → noDoubleSpace l = true
  | [], _ => fun h => h
  | _ :: t, l => fun h => noDouble_append_right t l (noDouble_tail h)

theorem noDouble_suffix {l' l : List Char} (h : l' <:+ l)
    (hd : noDoubleSpace l = true) : noDoubleSpace l' = true := by
  obtain ⟨t, rfl⟩ := h
  exact noDouble_append_right t l' hd

theorem noDouble_iff_chain : ∀ (l : List Char),
    noDoubleSpace l = true ↔
      List.Chain' (fun a b => ¬(a = ' ' ∧ b = ' ')) l
  | [] => by simp [noDoubleSpace]
  | [x] => by simp [noDoubleSpace]
  | x :: y :: t => by
    have hb : ((!(x = ' ' && y = ' ')) = true) ↔ ¬(x = ' ' ∧ y = ' ') := by
      constructor
      · intro h hand
        rw [hand.1, hand.2] at h
        simp at h
      · intro h
        by_cases hx : x = ' '
        · by_cases hy : y = ' '
          · exact absurd ⟨hx, hy⟩ h
          · simp [hx, hy]
        · simp [hx]
    rw [show noDoubleSpace (x :: y :: t) =
        (!(x = ' ' && y = ' ') && noDoubleSpace (y :: t)) from rfl,
      Bool.and_eq_true, noDouble_iff_chain (y :: t), List.chain'_cons, hb]

theorem noDouble_reverse (l : List Char) :
    noDoubleSpace l.reverse = true ↔ noDoubleSpace l = true := by
  rw [noDouble_iff_chain, noDouble_iff_chain, List.chain'_reverse]
  constructor <;>
    exact fun h => h.imp (fun a b hab hc => hab ⟨hc.2, hc.1⟩)

theorem pyStripList_subset (m : List Char) :
    ∀ c ∈ pyStripList m, c ∈ m := by
  intro c hc
  simp only [pyStripList] at hc
  have h1 := List.mem_reverse.mp hc
  have h2 := (List.dropWhile_sublist pyIsSpace).subset h1
  have h3 := List.mem_reverse.mp h2
  exact (List.dropWhile_sublist pyIsSpace).subset h3

theorem pyStripList_noDouble {m : List Char}
    (h : noDoubleSpace m = true) :
    noDoubleSpace (pyStripList m) = true := by
  simp only [pyStripList]
  refine (noDouble_reverse _).mpr ?_
  refine noDouble_suffix (List.dropWhile_suffix pyIsSpace) ?_
  refine (noDouble_reverse _).mpr ?_
  exact noDouble_suffix (List.dropWhile_suffix pyIsSpace) h

theorem pyStripList_head {m : List Char} :
    ∀ c, (pyStripList m).head? = Option.some c → pyIsSpace c = false := by
  intro c hc
  simp only [pyStripList, List.head?_reverse] at hc
  have hsuf : (m.dropWhile pyIsSpace).reverse.dropWhile pyIsSpace <:+
      (m.dropWhile pyIsSpace).reverse := List.dropWhile_suffix pyIsSpace
  obtain ⟨t, ht⟩ := hsuf
  have hy : (m.dropWhile pyIsSpace).reverse.getLast? = Option.some c := by
    rw [← ht, List.getLast?_append, hc]
    rfl
  rw [List.getLast?_reverse] at hy
  have hw := List.head?_dropWhile_not pyIsSpace m
  rw [hy] at hw
  exact hw

theorem pyStripList_last {m : List Char} :
    ∀ c, (pyStripList m).getLast? = Option.some c → pyIsSpace c = false := by
  intro c hc
  simp only [pyStripList, List.getLast?_reverse] at hc
  have hw := List.head?_dropWhile_not pyIsSpace (m.dropWhile pyIsSpace).reverse
  rw [hc] at hw
  exact hw

theorem clean_name_wellCleaned (s : String) :
    wellCleanedName (clean_name s) := by
  have hdata : (clean_name s).data = pyStripList (collapseWS false s.data) :=
    rfl
  refine ⟨?_, ?_, ?_, ?_⟩
  · intro c hc hsp
    rw [hdata] at hc
    exact collapseWS_space s.data false c (pyStripList_subset _ c hc) hsp
  · rw [hdata]
    exact pyStripList_noDouble (collapseWS_noDouble s.data false).1
  · intro c hc
    rw [hdata] at hc
    exact pyStripList_head c hc
  · intro c hc
    rw [hdata] at hc
    exact pyStripList_last c hc

/-- Counterexample to claim C8 as stated: a whitespace-only name is truthy
as a raw string, so validation reports no problem even though the name is
empty after cleaning. -/
theorem validate_payload_counterexample :
    validate_payload vWhitespaceName = [] ∧ clean_name "   " = "" := by
  decide

/-- Claim C8 (amended): `validate_payload` is a total function returning
its problems as strings; the list is non-empty exactly when the raw
`full_name` field is absent or the empty string (no cleaning is applied
before the check) or a present `passport_numbers`/`nationality` field is
not a list, and the absence of any field other than `full_name` produces
no error (an absent field is indistinguishable from a well-typed empty
list). -/
theorem validate_payload_spec (p : ValidationInput) :
    (validate_payload p ≠ [] ↔
      (pyTruthy p.full_name = false ∨
        isListField p.passport_numbers = false ∨
        isListField p.nationality = false)) ∧
    validate_payload ⟨p.full_name, Option.none, Option.none⟩ =
      validate_payload ⟨p.full_name, Option.some (StrOrList.list []),
        Option.some (StrOrList.list [])⟩ := by
  refine ⟨?_, rfl⟩
  cases hf : pyTruthy p.full_name <;>
    cases hp : isListField p.passport_numbers <;>
      cases hn : isListField p.nationality <;>
        simp [validate_payload, hf, hp, hn]

/-- Counterexample to claim C9 as stated: a raw passport entry consisting
of a lone hyphen is truthy, survives the raw-entry filter, and cleans to
the empty string, which is kept in the list. -/
theorem normalise_empty_id_counterexample :
    (normalise_manual_input fdHyphen).passport_numbers = [""] ∧
    "" ∈ (normalise_manual_input fdHyphen).passport_numbers := by
  decide

/-- Claim C9 (amended): the manual normalizer cleans the name (whitespace
runs collapsed to single spaces, ends trimmed), cleans every identifier
(no whitespace, no hyphen, no lower-case letter remains), coerces a
single-string input into a one-element list, and drops entries that are
empty or null in the raw input; however an identifier that only becomes
empty after cleaning (such as a lone hyphen) is kept as an empty
string. -/
theorem normalise_manual_input_amended (fd : FormData) :
    wellCleanedName ((normalise_manual_input fd).full_name.getD "") ∧
    (∀ x ∈ (normalise_manual_input fd).passport_numbers,
      (∃ raw ∈ coerceList fd.passport_numbers, raw ≠ "" ∧ x = clean_id raw) ∧
      ∀ c ∈ x.data, pyIsSpace c = false ∧ c.toNat ≠ 45 ∧
        ¬(97 ≤ c.toNat ∧ c.toNat ≤ 122)) ∧
    (∀ x, (normalise_manual_input fd).emirates_id = Option.some x →
      ∀ c ∈ x.data, pyIsSpace c = false ∧ c.toNat ≠ 45 ∧
        ¬(97 ≤ c.toNat ∧ c.toNat ≤ 122)) ∧
    (∀ n ∈ (normalise_manual_input fd).nationality,
      ∃ raw ∈ coerceList fd.nationality, raw ≠ "" ∧ n = pyStrip raw) ∧
    (∀ s, normalise_manual_input
        { fd with passport_numbers := Option.some (StrOrList.str s) } =
      normalise_manual_input
        { fd with passport_numbers := Option.some (StrOrList.list [s]) }) ∧
    (∀ s, normalise_manual_input
        { fd with nationality := Option.some (StrOrList.str s) } =
      normalise_manual_input
        { fd with nationality := Option.some (StrOrList.list [s]) }) := by
  refine ⟨?_, ?_, ?_, ?_, fun s => rfl, fun s => rfl⟩
  · show wellCleanedName ((Option.some (clean_name (fd.full_name.getD ""))).getD "")
    exact clean_name_wellCleaned _
  · intro x hx
    have hx' : x ∈ ((coerceList fd.passport_numbers).filter
        (fun p => p ≠ "")).map clean_id := hx
    obtain ⟨raw, hraw, rfl⟩ := List.mem_map.mp hx'
    obtain ⟨hmem, hne⟩ := List.mem_filter.mp hraw
    exact ⟨⟨raw, hmem, by simpa using hne, rfl⟩, clean_id_chars raw⟩
  · intro x hx
    by_cases ht : pyTruthy fd.emirates_id
    · have : (normalise_manual_input fd).emirates_id =
          Option.some (clean_id (fd.emirates_id.getD "")) := by
        simp only [normalise_manual_input, if_pos ht]
      rw [this] at hx
      obtain rfl := Option.some.inj hx
      exact clean_id_chars _
    · have : (normalise_manual_input fd).emirates_id = Option.none := by
        simp only [normalise_manual_input, if_neg ht]
      rw [this] at hx
      cases hx
  · intro n hn
    have hn' : n ∈ ((coerceList fd.nationality).filter
        (fun x => x ≠ "")).map pyStrip := hn
    obtain ⟨raw, hraw, rfl⟩ := List.mem_map.mp hn'
    obtain ⟨hmem, hne⟩ := List.mem_filter.mp hraw
    exact ⟨raw, hmem, by simpa using hne, rfl⟩

/-- Witness for the amended C9 at a concrete messy form input. -/
theorem normalise_manual_input_amended_witness :
    (normalise_manual_input fdW9).full_name =
      Option.some "ahmed al marri" ∧
    (normalise_manual_input fdW9).passport_numbers = ["P1234"] ∧
    (normalise_manual_input fdW9).emirates_id = Option.some "7841990" ∧
    (normalise_manual_input fdW9).nationality = ["UAE"] ∧
    wellCleanedName "ahmed al marri" ∧
    (∃ raw ∈ coerceList fdW9.passport_numbers,
      raw ≠ "" ∧ "P1234" = clean_id raw) := by
  have h := normalise_manual_input_amended fdW9
  refine ⟨by decide, by decide, by decide, by decide, ?_, ?_⟩
  · have h1 := h.1
    rw [show (normalise_manual_input fdW9).full_name.getD "" =
        "ahmed al marri" from by decide] at h1
    exact h1
  · exact (h.2.1 "P1234" (by decide)).1

end Onboarding
